import Mathlib

/-!
Shallow embedding of `src/pve_cloud_rpc/server.py` from
Proxmox-Cloud/terraform-provider-pxc.

The file is a minimal gRPC asyncio shim: a single servicer class
`CloudServiceServicer` with one handler `GetMasterKubeconfig`, a `serve`
coroutine that configures and starts the server, and a `main` entry point.
The three collaborator functions (`get_online_pve_host`, `get_cloud_env`,
`get_ssh_master_kubeconfig`) are imported from external modules and are
modelled as opaque oracles that either return a value or raise an exception
(`Except Exc`).  The handler is embedded as a pure function that, besides
its result, yields the list of collaborator invocations it performed (to
reason about call order and short-circuiting) and the post-call program
state (to reason about frame conditions).
-/

namespace PveCloudRpc

/-- Exceptions raised by collaborators are opaque Python objects; only their
identity matters for propagation claims, so they are modelled as strings. -/
abbrev Exc := String

/-- The gRPC context argument passed to the handler.  The handler never
inspects it, so its content is opaque. -/
abbrev RpcContext := String

/-- Modelled from the spec: the protobuf request message (generated module
`cloud_pb2` is not in src).  The spec states the wire protocol accepts
`{target_pve: string, stack_name: string}`. -/
structure GetKubeconfigRequest where
  target_pve : String
  stack_name : String
deriving DecidableEq, Repr

/-- Modelled from the spec: the protobuf response message (generated module
`cloud_pb2` is not in src).  The spec states the wire protocol returns
`{config: string}`. -/
structure GetKubeconfigResponse where
  config : String
deriving DecidableEq, Repr

/-- Modelled from the spec: the service description in the generated module
`cloud_pb2_grpc` is not in src.  The spec states the wire protocol consists
of exactly one RPC method. -/
def CloudService_method_names : List String := ["GetMasterKubeconfig"]

/-- The three external collaborator functions imported by `server.py`.
Each may return a value (`.ok`) or raise (`.error`).  `get_cloud_env`
returns the triple `(cluster_vars, patroni_pass, bind_internal_key)`
that the handler unpacks; cluster_vars is opaque and modelled as a string. -/
structure Collaborators where
  get_online_pve_host : String → Except Exc String
  get_cloud_env : String → Except Exc (String × String × String)
  get_ssh_master_kubeconfig : String → String → Except Exc String

/-- One collaborator invocation performed by the handler, with the
arguments it was given. -/
inductive Event where
  | callHost (target_pve : String)
  | callEnv (host : String)
  | callKube (cluster_vars stack_name : String)
deriving DecidableEq, Repr

/-- Mutable state visible to the handler: the servicer object's attribute
dictionary and the module-level globals.  `CloudServiceServicer` declares no
attributes and `server.py` assigns no globals, but the state is threaded
through the handler so that the frame condition is a statement, not a
convention. -/
structure ProgState where
  servicer_attrs : List (String × String)
  module_globals : List (String × String)
deriving DecidableEq, Repr

/-- Embedding of `CloudServiceServicer.GetMasterKubeconfig`:

    target_pve = request.target_pve
    stack_name = request.stack_name
    online_pve_host = get_online_pve_host(target_pve)
    cluster_vars, patroni_pass, bind_internal_key = get_cloud_env(online_pve_host)
    return cloud_pb2.GetKubeconfigResponse(
        config=get_ssh_master_kubeconfig(cluster_vars, stack_name))

An exception raised by any collaborator aborts the remaining calls and
propagates as `.error` (Python exception semantics).  The returned trace
lists the collaborator calls actually performed, in order. -/
def GetMasterKubeconfig (env : Collaborators) (self : ProgState)
    (request : GetKubeconfigRequest) (context : RpcContext) :
    Except Exc GetKubeconfigResponse × List Event × ProgState :=
  let target_pve := request.target_pve
  let stack_name := request.stack_name
  match env.get_online_pve_host target_pve with
  | .error e => (.error e, [.callHost target_pve], self)
  | .ok online_pve_host =>
    match env.get_cloud_env online_pve_host with
    | .error e => (.error e, [.callHost target_pve, .callEnv online_pve_host], self)
    | .ok (cluster_vars, _patroni_pass, _bind_internal_key) =>
      match env.get_ssh_master_kubeconfig cluster_vars stack_name with
      | .error e =>
        (.error e,
         [.callHost target_pve, .callEnv online_pve_host,
          .callKube cluster_vars stack_name], self)
      | .ok cfg =>
        (.ok { config := cfg },
         [.callHost target_pve, .callEnv online_pve_host,
          .callKube cluster_vars stack_name], self)

/-- The configuration accumulated on the `grpc.aio.server()` object by the
calls `serve` makes on it.  Fields that `serve` never touches (options,
secure ports, credentials) are kept so that their absence is provable. -/
structure ServerConfig where
  options : List (String × String)
  services : List String
  insecure_ports : List String
  secure_ports : List String
  credentials : Option String
  started : Bool
deriving DecidableEq, Repr

/-- `grpc.aio.server()` called with no arguments: a fresh, unconfigured
server. -/
def grpc_aio_server : ServerConfig :=
  { options := [], services := [], insecure_ports := [], secure_ports := [],
    credentials := none, started := false }

/-- `cloud_pb2_grpc.add_CloudServiceServicer_to_server(CloudServiceServicer(), server)`. -/
def add_CloudServiceServicer_to_server (server : ServerConfig) : ServerConfig :=
  { server with services := server.services ++ ["CloudService"] }

/-- `server.add_insecure_port(listen_addr)`. -/
def ServerConfig.add_insecure_port (server : ServerConfig) (addr : String) : ServerConfig :=
  { server with insecure_ports := server.insecure_ports ++ [addr] }

/-- `await server.start()`. -/
def ServerConfig.start (server : ServerConfig) : ServerConfig :=
  { server with started := true }

/-- `listen_addr = "[::]:50051"` in `serve`. -/
def listen_addr : String := "[::]:50051"

/-- The server configuration `serve` has built by the time it reaches
`wait_for_termination` (the statements of `serve` up to `await server.start()`). -/
def serveConfig : ServerConfig :=
  let server := grpc_aio_server
  let server := add_CloudServiceServicer_to_server server
  let server := server.add_insecure_port listen_addr
  server.start

/-- Splits a character list at every occurrence of `sep`. -/
def splitCharList (sep : Char) : List Char → List (List Char)
  | [] => [[]]
  | c :: cs =>
    let rest := splitCharList sep cs
    if c = sep then [] :: rest
    else
      match rest with
      | [] => [[c]]
      | g :: gs => (c :: g) :: gs

/-- Parses a nonempty list of decimal digits as a natural number. -/
def decDigitsToNat (cs : List Char) : Option Nat :=
  if cs.isEmpty then none
  else
    cs.foldl
      (fun acc c =>
        acc.bind fun n =>
          if c.isDigit then some (10 * n + (c.toNat - 48)) else none)
      (some 0)

/-- The numeric port of a bind address: the text after the last `:`. -/
def addrPort (addr : String) : Option Nat :=
  (splitCharList ':' addr.toList).getLast? >>= decDigitsToNat

/-- The host part of a bind address: everything before the last `:`. -/
def addrHost (addr : String) : String :=
  String.mk (List.intercalate [':'] ((splitCharList ':' addr.toList).dropLast))

/-- Program points of the `serve` coroutine, one per statement, plus the
state of having returned from `serve`. -/
inductive ServePC where
  | createServer
  | addServicer
  | addPort
  | startServer
  | printBanner
  | waitTermination
  | returned
deriving DecidableEq, Repr

/-- Events driving the `serve` coroutine: `internal` is an ordinary
execution step; `termSignal` is an external termination of the server
(the only thing that completes `wait_for_termination`). -/
inductive ServeEvent where
  | internal
  | termSignal
deriving DecidableEq, Repr

/-- Small-step control flow of `serve`.  The statements run in program
order; `wait_for_termination` completes only on an external termination
signal. -/
inductive ServeStepRel : ServePC → ServeEvent → ServePC → Prop where
  | create : ServeStepRel .createServer .internal .addServicer
  | add_servicer : ServeStepRel .addServicer .internal .addPort
  | add_port : ServeStepRel .addPort .internal .startServer
  | start_srv : ServeStepRel .startServer .internal .printBanner
  | print_banner : ServeStepRel .printBanner .internal .waitTermination
  | terminate : ServeStepRel .waitTermination .termSignal .returned

/-- Reachability along `ServeStepRel`, recording the list of events
consumed. -/
inductive ServeReaches : ServePC → List ServeEvent → ServePC → Prop where
  | refl (pc : ServePC) : ServeReaches pc [] pc
  | step {pc pc' pc'' : ServePC} {ev : ServeEvent} {evs : List ServeEvent} :
      ServeStepRel pc ev pc' → ServeReaches pc' evs pc'' →
      ServeReaches pc (ev :: evs) pc''

/-- `main()` runs `serve` from its first statement
(`asyncio.run(serve())`). -/
def mainEntry : ServePC := ServePC.createServer

/-- A fixed set of collaborators in which every call succeeds, used to
instantiate universally quantified theorems at a concrete input. -/
def envOkEx : Collaborators :=
  { get_online_pve_host := fun t => .ok ("host-" ++ t)
    get_cloud_env := fun h => .ok ("cv-" ++ h, "pp", "bk")
    get_ssh_master_kubeconfig := fun cv sn => .ok ("kubeconfig:" ++ cv ++ ":" ++ sn) }

/-- A fixed set of collaborators whose host discovery raises. -/
def envHostFailEx : Collaborators :=
  { envOkEx with get_online_pve_host := fun _ => .error "host down" }

/-- A fixed set of collaborators whose environment resolution raises. -/
def envEnvFailEx : Collaborators :=
  { envOkEx with get_cloud_env := fun _ => .error "env boom" }

/-- A fixed request used to instantiate theorems at a concrete input. -/
def reqEx : GetKubeconfigRequest := { target_pve := "pve1", stack_name := "prod" }

/-- A fixed program state used to instantiate theorems at a concrete input. -/
def stEx : ProgState := { servicer_attrs := [], module_globals := [("listen", "x")] }

/-- C1: when every collaborator succeeds, the handler calls host discovery
on the target, then environment resolution on the discovered host, then
kubeconfig retrieval on the resolved cluster_vars and the stack name, in
that order, and returns exactly the retrieved kubeconfig as the `config`
field, untransformed. -/
theorem getMasterKubeconfig_order_and_passthrough
    (env : Collaborators) (self : ProgState) (r : GetKubeconfigRequest)
    (ctx : RpcContext) (h cv pp bk cfg : String)
    (hhost : env.get_online_pve_host r.target_pve = .ok h)
    (henv : env.get_cloud_env h = .ok (cv, pp, bk))
    (hkube : env.get_ssh_master_kubeconfig cv r.stack_name = .ok cfg) :
    GetMasterKubeconfig env self r ctx =
      (.ok { config := cfg },
       [.callHost r.target_pve, .callEnv h, .callKube cv r.stack_name], self) := by
  simp [GetMasterKubeconfig, hhost, henv, hkube]

/-- Witness for C1 at a concrete successful run. -/
theorem getMasterKubeconfig_order_and_passthrough_witness :
    GetMasterKubeconfig envOkEx stEx reqEx "ctx" =
      (.ok { config := "kubeconfig:cv-host-pve1:prod" },
       [.callHost "pve1", .callEnv "host-pve1", .callKube "cv-host-pve1" "prod"],
       stEx) :=
  getMasterKubeconfig_order_and_passthrough envOkEx stEx reqEx "ctx"
    "host-pve1" "cv-host-pve1" "pp" "bk" "kubeconfig:cv-host-pve1:prod"
    rfl rfl rfl

/-- C2: the handler raises exactly the exceptions of its collaborators,
unchanged: its result is `.error e` if and only if the first failing
collaborator in the executed chain raised that very `e`; in particular it
raises if and only if some collaborator raises. -/
theorem getMasterKubeconfig_error_propagation
    (env : Collaborators) (self : ProgState) (r : GetKubeconfigRequest)
    (ctx : RpcContext) (e : Exc) :
    (GetMasterKubeconfig env self r ctx).1 = .error e ↔
      (env.get_online_pve_host r.target_pve = .error e ∨
       (∃ h, env.get_online_pve_host r.target_pve = .ok h ∧
             env.get_cloud_env h = .error e) ∨
       (∃ h cv pp bk, env.get_online_pve_host r.target_pve = .ok h ∧
             env.get_cloud_env h = .ok (cv, pp, bk) ∧
             env.get_ssh_master_kubeconfig cv r.stack_name = .error e)) := by
  unfold GetMasterKubeconfig
  rcases hhost : env.get_online_pve_host r.target_pve with e' | h
  · simp [hhost]
  · rcases henv : env.get_cloud_env h with e' | ⟨cv, pp, bk⟩
    · simp [hhost, henv]
    · rcases hkube : env.get_ssh_master_kubeconfig cv r.stack_name with e' | cfg
      · simp [hhost, henv, hkube]
      · simp [hhost, henv, hkube]

/-- Witness for C2 at a concrete failing run: the handler's error is the
exact exception raised by host discovery. -/
theorem getMasterKubeconfig_error_propagation_witness :
    (GetMasterKubeconfig envHostFailEx stEx reqEx "ctx").1 = .error "host down" :=
  (getMasterKubeconfig_error_propagation envHostFailEx stEx reqEx "ctx"
    "host down").mpr (Or.inl rfl)

/-- C6: the handler is stateless per call: it reads and writes no servicer
attribute and no module global, so the program state after any call is
identical to the state before it. -/
theorem getMasterKubeconfig_stateless
    (env : Collaborators) (self : ProgState) (r : GetKubeconfigRequest)
    (ctx : RpcContext) :
    (GetMasterKubeconfig env self r ctx).2.2 = self := by
  rcases hh : env.get_online_pve_host r.target_pve with e | h
  · simp [GetMasterKubeconfig, hh]
  · rcases he : env.get_cloud_env h with e | ⟨cv, pp, bk⟩
    · simp [GetMasterKubeconfig, hh, he]
    · rcases hk : env.get_ssh_master_kubeconfig cv r.stack_name with e | cfg <;>
        simp [GetMasterKubeconfig, hh, he, hk]

/-- C7: the handler is deterministic relative to its collaborators: two
calls with equal `target_pve` and `stack_name`, against the same
collaborator behaviour, return equal results, regardless of the contexts
and of the (untouched) program states of the two calls. -/
theorem getMasterKubeconfig_deterministic
    (env : Collaborators) (self₁ self₂ : ProgState)
    (r₁ r₂ : GetKubeconfigRequest) (ctx₁ ctx₂ : RpcContext)
    (ht : r₁.target_pve = r₂.target_pve) (hs : r₁.stack_name = r₂.stack_name) :
    (GetMasterKubeconfig env self₁ r₁ ctx₁).1 =
      (GetMasterKubeconfig env self₂ r₂ ctx₂).1 := by
  rcases hh : env.get_online_pve_host r₂.target_pve with e | h
  · simp [GetMasterKubeconfig, ht, hs, hh]
  · rcases he : env.get_cloud_env h with e | ⟨cv, pp, bk⟩
    · simp [GetMasterKubeconfig, ht, hs, hh, he]
    · rcases hk : env.get_ssh_master_kubeconfig cv r₂.stack_name with e | cfg <;>
        simp [GetMasterKubeconfig, ht, hs, hh, he, hk]

/-- Witness for C7: two concrete calls with the same request fields but
different contexts and states yield the same result. -/
theorem getMasterKubeconfig_deterministic_witness :
    (GetMasterKubeconfig envOkEx stEx reqEx "ctxA").1 =
      (GetMasterKubeconfig envOkEx { servicer_attrs := [("a", "b")], module_globals := [] }
        reqEx "ctxB").1 :=
  getMasterKubeconfig_deterministic envOkEx stEx
    { servicer_attrs := [("a", "b")], module_globals := [] }
    reqEx reqEx "ctxA" "ctxB" rfl rfl

/-- C9: of the triple returned by `get_cloud_env`, only `cluster_vars`
(the first component) influences the handler: collaborators whose
environment resolutions agree on the first component — whatever their
`patroni_pass` and `bind_internal_key` components — give identical
handler outcomes. -/
theorem getMasterKubeconfig_only_cluster_vars_matters
    (hostf : String → Except Exc String)
    (envf₁ envf₂ : String → Except Exc (String × String × String))
    (kubef : String → String → Except Exc String)
    (self : ProgState) (r : GetKubeconfigRequest) (ctx : RpcContext)
    (hfst : ∀ x, (envf₁ x).map (fun t => t.1) = (envf₂ x).map (fun t => t.1)) :
    GetMasterKubeconfig ⟨hostf, envf₁, kubef⟩ self r ctx =
      GetMasterKubeconfig ⟨hostf, envf₂, kubef⟩ self r ctx := by
  rcases hh : hostf r.target_pve with e | h
  · simp [GetMasterKubeconfig, hh]
  · have hx := hfst h
    rcases h₁ : envf₁ h with e₁ | ⟨cv₁, pp₁, bk₁⟩ <;>
      rcases h₂ : envf₂ h with e₂ | ⟨cv₂, pp₂, bk₂⟩ <;>
        simp [Except.map, h₁, h₂] at hx <;>
          simp [GetMasterKubeconfig, hh, h₁, h₂, hx]

/-- Witness for C9: concrete environment resolutions agreeing on
`cluster_vars` but differing in `patroni_pass` and `bind_internal_key`
give the same handler outcome. -/
theorem getMasterKubeconfig_only_cluster_vars_matters_witness :
    GetMasterKubeconfig
        ⟨fun t => .ok ("host-" ++ t), fun h => .ok ("cv-" ++ h, "pass1", "key1"),
         fun cv sn => .ok ("kubeconfig:" ++ cv ++ ":" ++ sn)⟩ stEx reqEx "ctx" =
      GetMasterKubeconfig
        ⟨fun t => .ok ("host-" ++ t), fun h => .ok ("cv-" ++ h, "pass2", "key2"),
         fun cv sn => .ok ("kubeconfig:" ++ cv ++ ":" ++ sn)⟩ stEx reqEx "ctx" :=
  getMasterKubeconfig_only_cluster_vars_matters
    (fun t => .ok ("host-" ++ t))
    (fun h => .ok ("cv-" ++ h, "pass1", "key1"))
    (fun h => .ok ("cv-" ++ h, "pass2", "key2"))
    (fun cv sn => .ok ("kubeconfig:" ++ cv ++ ":" ++ sn))
    stEx reqEx "ctx" (fun _ => rfl)

/-- C10: the collaborator calls short-circuit on failure: if host
discovery raises, the trace records neither an environment-resolution nor
a kubeconfig-retrieval call; if environment resolution raises, the trace
records no kubeconfig-retrieval call. -/
theorem getMasterKubeconfig_short_circuit
    (env : Collaborators) (self : ProgState) (r : GetKubeconfigRequest)
    (ctx : RpcContext) :
    (∀ e, env.get_online_pve_host r.target_pve = .error e →
      (GetMasterKubeconfig env self r ctx).2.1 = [.callHost r.target_pve]) ∧
    (∀ h e, env.get_online_pve_host r.target_pve = .ok h →
      env.get_cloud_env h = .error e →
      (GetMasterKubeconfig env self r ctx).2.1 =
        [.callHost r.target_pve, .callEnv h]) := by
  constructor
  · intro e he
    simp [GetMasterKubeconfig, he]
  · intro h e hh he
    simp [GetMasterKubeconfig, hh, he]

/-- Witness for C10: with failing host discovery, only the host-discovery
call appears in the trace; with failing environment resolution, no
kubeconfig-retrieval call appears. -/
theorem getMasterKubeconfig_short_circuit_witness :
    (GetMasterKubeconfig envHostFailEx stEx reqEx "ctx").2.1 = [.callHost "pve1"] ∧
    (GetMasterKubeconfig envEnvFailEx stEx reqEx "ctx").2.1 =
      [.callHost "pve1", .callEnv "host-pve1"] :=
  ⟨(getMasterKubeconfig_short_circuit envHostFailEx stEx reqEx "ctx").1
      "host down" rfl,
   (getMasterKubeconfig_short_circuit envEnvFailEx stEx reqEx "ctx").2
      "host-pve1" "env boom" rfl rfl⟩

/-- C3: the service exposes exactly one RPC method; the request carries
exactly the two string fields `target_pve` and `stack_name` (they determine
the request, and the handler's behaviour depends on the request only
through them); the response carries exactly the one string field `config`
(it determines the response). -/
theorem cloudService_single_method_and_fields :
    CloudService_method_names = ["GetMasterKubeconfig"] ∧
    (∀ (env : Collaborators) (self : ProgState) (r₁ r₂ : GetKubeconfigRequest)
       (ctx : RpcContext), r₁.target_pve = r₂.target_pve →
       r₁.stack_name = r₂.stack_name →
       GetMasterKubeconfig env self r₁ ctx = GetMasterKubeconfig env self r₂ ctx) ∧
    (∀ req₁ req₂ : GetKubeconfigRequest, req₁.target_pve = req₂.target_pve →
       req₁.stack_name = req₂.stack_name → req₁ = req₂) ∧
    (∀ resp₁ resp₂ : GetKubeconfigResponse, resp₁.config = resp₂.config →
       resp₁ = resp₂) := by
  refine ⟨rfl, ?_, ?_, ?_⟩
  · intro env self r₁ r₂ ctx ht hs
    have hr : r₁ = r₂ := by cases r₁; cases r₂; simp_all
    rw [hr]
  · intro req₁ req₂ ht hs
    cases req₁; cases req₂; simp_all
  · intro resp₁ resp₂ hc
    cases resp₁; cases resp₂; simp_all

/-- Witness for C3: the handler gives equal results on two requests with
equal `target_pve` and `stack_name` fields. -/
theorem cloudService_single_method_and_fields_witness :
    GetMasterKubeconfig envOkEx stEx reqEx "c" =
      GetMasterKubeconfig envOkEx stEx
        { target_pve := "pve1", stack_name := "prod" } "c" :=
  cloudService_single_method_and_fields.2.1 envOkEx stEx reqEx
    { target_pve := "pve1", stack_name := "prod" } "c" rfl rfl

/-- C4: `serve` binds exactly one port, insecurely: the fixed address
`[::]:50051` (all interfaces, port 50051), with no secure port and no
credentials configured. -/
theorem serve_binds_insecure_fixed_port :
    serveConfig.insecure_ports = [listen_addr] ∧
    addrHost listen_addr = "[::]" ∧
    addrPort listen_addr = some 50051 ∧
    serveConfig.secure_ports = [] ∧
    serveConfig.credentials = none := by
  refine ⟨rfl, by decide, by decide, rfl, rfl⟩

/-- Internal execution steps of `serve` never enter the returned state:
only the external termination signal completes `wait_for_termination`. -/
theorem serveStep_internal_ne_returned {pc pc' : ServePC}
    (h : ServeStepRel pc .internal pc') : pc' ≠ ServePC.returned := by
  cases h <;> decide

/-- Any execution of `serve` from a point other than the returned state
that ends in the returned state must have consumed an external termination
signal. -/
theorem serveReaches_returned_requires_signal {pc pc'' : ServePC}
    {evs : List ServeEvent} (h : ServeReaches pc evs pc'') :
    pc'' = ServePC.returned → pc ≠ ServePC.returned →
    ServeEvent.termSignal ∈ evs := by
  induction h with
  | refl pc => intro h1 h2; exact absurd h1 h2
  | step hstep htail ih =>
    intro h1 _
    cases hstep with
    | create => exact List.mem_cons_of_mem _ (ih h1 (by decide))
    | add_servicer => exact List.mem_cons_of_mem _ (ih h1 (by decide))
    | add_port => exact List.mem_cons_of_mem _ (ih h1 (by decide))
    | start_srv => exact List.mem_cons_of_mem _ (ih h1 (by decide))
    | print_banner => exact List.mem_cons_of_mem _ (ih h1 (by decide))
    | terminate => exact List.mem_cons_self _ _

/-- C5: `main` is a single blocking call: execution runs the statements of
`serve` in order and then parks in `wait_for_termination`, whose only exit
consumes an external termination signal; so no execution of `main` returns
without an external termination event. -/
theorem main_blocks_until_external_termination :
    (∀ evs : List ServeEvent, ServeReaches mainEntry evs ServePC.returned →
       ServeEvent.termSignal ∈ evs) ∧
    (∀ (ev : ServeEvent) (pc : ServePC),
       ServeStepRel ServePC.waitTermination ev pc →
       ev = ServeEvent.termSignal ∧ pc = ServePC.returned) := by
  constructor
  · intro evs h
    exact serveReaches_returned_requires_signal h rfl (by decide)
  · intro ev pc h
    cases h
    exact ⟨rfl, rfl⟩

/-- Witness for C5: the complete run of `serve` that does return consumes
a termination signal. -/
theorem main_blocks_until_external_termination_witness :
    ServeEvent.termSignal ∈
      [ServeEvent.internal, ServeEvent.internal, ServeEvent.internal,
       ServeEvent.internal, ServeEvent.internal, ServeEvent.termSignal] :=
  main_blocks_until_external_termination.1 _
    (ServeReaches.step .create
      (ServeReaches.step .add_servicer
        (ServeReaches.step .add_port
          (ServeReaches.step .start_srv
            (ServeReaches.step .print_banner
              (ServeReaches.step .terminate (ServeReaches.refl _)))))))

/-- C8: no explicit cancellation, deadline or timeout is configured: the
handler's outcome is independent of the RPC context it is handed, and
`serve` passes no options to the server it builds. -/
theorem no_explicit_timeout_or_context_use :
    (∀ (env : Collaborators) (self : ProgState) (r : GetKubeconfigRequest)
       (ctx₁ ctx₂ : RpcContext),
       GetMasterKubeconfig env self r ctx₁ = GetMasterKubeconfig env self r ctx₂) ∧
    serveConfig.options = [] :=
  ⟨fun _ _ _ _ _ => rfl, rfl⟩

end PveCloudRpc
